import Mathlib

/-
Verification of the Funky Todo API backend (src/main.py).

The program is a FastAPI service over a MongoDB collection named "task".
We shallow-embed the persisted documents as association lists from string
keys to a BSON-like value type, the collection as a list of documents,
and each endpoint handler as a pure function from the database handle,
the request data and the current clock to an outcome: the HTTP response
(success value or structured error), the database state afterwards, and
the trace of store operations performed.

The database module (database.py: the handle `db`, `create_document`) is
imported by main.py but is not part of the sources; it is modelled from
the spec where needed, and marked as such.
-/

namespace FunkyTodo

/-- BSON-like values stored in a task document. `vNull` is Python None /
BSON null; `vOid` is an ObjectId; `vTime` a datetime (modelled as a Nat
timestamp). -/
inductive Value where
  | vNull : Value
  | vStr : String → Value
  | vBool : Bool → Value
  | vTime : Nat → Value
  | vOid : String → Value
deriving DecidableEq, Repr

/-- A persisted document: an association list from field names to values.
A key that is absent from the list is an absent field, which is distinct
from a key that is present with value `vNull`. -/
abbrev Doc := List (String × Value)

/-- The "task" collection, in the store's natural (insertion) order. -/
abbrev Store := List Doc

/-- Field lookup: `dGet d k` is `some v` when field `k` is present with
value `v`, `none` when it is absent (Python `k in d` plus `d[k]`). -/
def dGet : Doc → String → Option Value
  | [], _ => none
  | (k', v) :: rest, k => if k' = k then some v else dGet rest k

/-- Python `doc.get(k)`: the stored value, or None when absent. -/
def pyGet (d : Doc) (k : String) : Value :=
  (dGet d k).getD Value.vNull

/-- Python `doc.get(k, default)`: the stored value, or `default` when
absent. -/
def pyGetD (d : Doc) (k : String) (default : Value) : Value :=
  (dGet d k).getD default

/-- Python truthiness of a stored value (`if doc.get(...)`). None is
falsy; datetimes are always truthy; strings are truthy when nonempty. -/
def truthy : Value → Bool
  | Value.vNull => false
  | Value.vStr s => !s.isEmpty
  | Value.vBool b => b
  | Value.vTime _ => true
  | Value.vOid _ => true

/-- Python `str(...)` on a stored value, as used by `str(doc.get("_id"))`. -/
def pyStr : Value → String
  | Value.vNull => "None"
  | Value.vStr s => s
  | Value.vBool b => if b then "True" else "False"
  | Value.vTime t => toString t
  | Value.vOid s => s

/-- `datetime.isoformat`, abstracted: an injective rendering of the
timestamp. -/
def isoformat (t : Nat) : String :=
  toString t

/-- One hexadecimal digit, as accepted by `bson.ObjectId`. -/
def isHexDigit (c : Char) : Bool :=
  c.isDigit || (('a' ≤ c && c ≤ 'f') || ('A' ≤ c && c ≤ 'F'))

/-- `ObjectId(s)` on a string succeeds exactly when `s` is a 24-character
hexadecimal token (the store's fixed-length identifier format). -/
def validObjectId (s : String) : Bool :=
  s.length == 24 && s.data.all isHexDigit

/-- Mongo `$set` of a single field: replace the value when the key is
present, append the field otherwise. -/
def dSet : Doc → String → Value → Doc
  | [], k, v => [(k, v)]
  | (k', v') :: rest, k, v =>
      if k' = k then (k, v) :: rest else (k', v') :: dSet rest k v

/-- Mongo `$set` of a whole update mapping, field by field. -/
def dSetAll (d : Doc) (kvs : List (String × Value)) : Doc :=
  kvs.foldl (fun a p => dSet a p.1 p.2) d

/-- `db["task"].find_one({"_id": oid})`: the first document whose `_id`
field is the given ObjectId. -/
def findOne : Store → String → Option Doc
  | [], _ => none
  | d :: rest, oid =>
      if dGet d "_id" = some (Value.vOid oid) then some d else findOne rest oid

/-- `db["task"].update_one({"_id": oid}, {"$set": kvs})`: apply the `$set`
to the first matching document; the Bool is whether `matched_count` was
nonzero. -/
def updateOne : Store → String → List (String × Value) → Bool × Store
  | [], _, _ => (false, [])
  | d :: rest, oid, kvs =>
      if dGet d "_id" = some (Value.vOid oid) then
        (true, dSetAll d kvs :: rest)
      else
        let r := updateOne rest oid kvs
        (r.1, d :: r.2)

/-- `db["task"].delete_one({"_id": oid})`: remove the first matching
document; the Bool is whether `deleted_count` was nonzero. -/
def deleteOne : Store → String → Bool × Store
  | [], _ => (false, [])
  | d :: rest, oid =>
      if dGet d "_id" = some (Value.vOid oid) then (true, rest)
      else
        let r := deleteOne rest oid
        (r.1, d :: r.2)

/-- Sort key for `sort("created_at", -1)`: documents with a `created_at`
timestamp come before documents where it is absent or null (Mongo's
descending BSON order places dates before nulls). -/
def sortKey (d : Doc) : Nat :=
  match dGet d "created_at" with
  | some (Value.vTime t) => t + 1
  | _ => 0

/-- The descending-`created_at` order used by the list endpoint. -/
def descRel (a b : Doc) : Prop :=
  sortKey b ≤ sortKey a

instance : DecidableRel descRel :=
  fun a b => Nat.decLe (sortKey b) (sortKey a)

instance : IsTotal Doc descRel :=
  ⟨fun a b => Nat.le_total (sortKey b) (sortKey a)⟩

instance : IsTrans Doc descRel :=
  ⟨fun _ _ _ h1 h2 => Nat.le_trans h2 h1⟩

/-- `db["task"].find({}).sort("created_at", -1)`: all documents, stably
sorted by descending `created_at` (ties keep the store's natural order). -/
def listAll (s : Store) : List Doc :=
  List.insertionSort descRel s

/-- The wire shape produced by `serialize_task`. `title`, `notes` and
`priority` pass the stored value through; the timestamps become ISO
strings or null; `completed` is coerced to a boolean. -/
structure Wire where
  id : String
  title : Value
  notes : Value
  priority : Value
  due_date : Option String
  completed : Bool
  created_at : Option String
  updated_at : Option String
deriving DecidableEq, Repr

/-- The expression `doc.get(k).isoformat() if doc.get(k) else None`: null
or a falsy value renders as None, a datetime renders as its ISO string,
and any other truthy value raises (no `isoformat` attribute). -/
def isoOpt (v : Value) : Except String (Option String) :=
  if truthy v then
    match v with
    | Value.vTime t => Except.ok (some (isoformat t))
    | _ => Except.error "AttributeError: isoformat"
  else
    Except.ok none

/-- `serialize_task(doc)` from src/main.py lines 39 to 51. A missing or
empty (falsy) document is passed through; otherwise each wire field is
computed from the stored document. An `Except.error` models a raised
Python exception. -/
def serialize_task (doc : Option Doc) : Except String (Option Wire) :=
  match doc with
  | none => Except.ok none
  | some d =>
    if d.isEmpty then Except.ok none
    else
      match isoOpt (pyGet d "due_date"), isoOpt (pyGet d "created_at"),
            isoOpt (pyGet d "updated_at") with
      | Except.ok dd, Except.ok ca, Except.ok ua =>
          Except.ok (some
            ⟨pyStr (pyGet d "_id"),
             pyGet d "title",
             pyGet d "notes",
             pyGetD d "priority" (Value.vStr "normal"),
             dd,
             truthy (pyGetD d "completed" (Value.vBool false)),
             ca,
             ua⟩)
      | Except.error e, _, _ => Except.error e
      | _, Except.error e, _ => Except.error e
      | _, _, Except.error e => Except.error e

/-- Serialization of a retrieved list, first exception aborting
(`[serialize_task(d) for d in docs]`). -/
def serializeList : List Doc → Except String (List (Option Wire))
  | [] => Except.ok []
  | d :: rest =>
    match serialize_task (some d), serializeList rest with
    | Except.ok w, Except.ok ws => Except.ok (w :: ws)
    | Except.error e, _ => Except.error e
    | _, Except.error e => Except.error e

/-- The `TaskCreate` request model: a parsed body. `title` is required;
`notes` and `due_date` are optional; `priority` defaults to "normal" at
parse time. -/
structure TaskCreate where
  title : String
  notes : Option String
  priority : String
  due_date : Option Nat
deriving DecidableEq, Repr

/-- The `TaskUpdate` request model with presence tracking: the outer
Option is none when the field was omitted from the request body, and
`some none` when the field was supplied as an explicit null. -/
structure TaskUpdate where
  title : Option (Option String)
  notes : Option (Option String)
  priority : Option (Option String)
  due_date : Option (Option Nat)
  completed : Option (Option Bool)
deriving DecidableEq, Repr

/-- Pydantic validation of `TaskCreate`: the names of the fields whose
constraints are violated (title length 1 to 200, notes length at most
2000). An empty list means the body is accepted. -/
def createViolations (p : TaskCreate) : List String :=
  (if 1 ≤ p.title.length ∧ p.title.length ≤ 200 then [] else ["title"]) ++
  (match p.notes with
   | some s => if s.length ≤ 2000 then [] else ["notes"]
   | none => [])

/-- Pydantic validation of `TaskUpdate`: the length constraints apply
only to a supplied string value; an omitted field or an explicit null
passes. -/
def updateViolations (p : TaskUpdate) : List String :=
  (match p.title with
   | some (some s) => if 1 ≤ s.length ∧ s.length ≤ 200 then [] else ["title"]
   | _ => []) ++
  (match p.notes with
   | some (some s) => if s.length ≤ 2000 then [] else ["notes"]
   | _ => [])

/-- Lift an optional request value to a stored value (Python None is
stored as BSON null). -/
def optVal {α : Type} (f : α → Value) : Option α → Value
  | none => Value.vNull
  | some a => f a

/-- `payload.model_dump(exclude_unset=True)`: exactly the fields that
were explicitly supplied in the request body, in declaration order, an
explicit null dumping to null. -/
def TaskUpdate.dump (p : TaskUpdate) : List (String × Value) :=
  (match p.title with
   | some v => [("title", optVal Value.vStr v)]
   | none => []) ++
  (match p.notes with
   | some v => [("notes", optVal Value.vStr v)]
   | none => []) ++
  (match p.priority with
   | some v => [("priority", optVal Value.vStr v)]
   | none => []) ++
  (match p.due_date with
   | some v => [("due_date", optVal Value.vTime v)]
   | none => []) ++
  (match p.completed with
   | some v => [("completed", optVal Value.vBool v)]
   | none => [])

/-- The structured errors the service raises, one per `HTTPException`
site plus `validationError` for pydantic 422s and `internalError` for an
uncaught exception. -/
inductive ApiError where
  | notConfigured : ApiError
  | invalidIdentifier : ApiError
  | validationError : List String → ApiError
  | noFieldsToUpdate : ApiError
  | notFound : ApiError
  | internalError : ApiError
deriving DecidableEq, Repr

/-- The HTTP status each error maps to. -/
def ApiError.status : ApiError → Nat
  | ApiError.notConfigured => 500
  | ApiError.invalidIdentifier => 400
  | ApiError.validationError _ => 422
  | ApiError.noFieldsToUpdate => 400
  | ApiError.notFound => 404
  | ApiError.internalError => 500

/-- The success status of the create endpoint (`status_code=201`). -/
def createSuccessStatus : Nat := 201

/-- The success status of the delete endpoint (`status_code=204`). -/
def deleteSuccessStatus : Nat := 204

/-- One store access, for tracing when the handlers touch the store. -/
inductive StoreOp where
  | findAllSorted : StoreOp
  | findOneById : StoreOp
  | insertDoc : StoreOp
  | updateOneById : StoreOp
  | deleteOneById : StoreOp
deriving DecidableEq, Repr

/-- The outcome of handling one request: the response, the database
handle afterwards, and the store accesses performed, in order. -/
structure Outcome (α : Type) where
  response : Except ApiError α
  db : Option Store
  ops : List StoreOp
deriving Repr

/-- Modelled from the spec: the document insert helper `create_document`
lives in database.py, which is not part of the sources. Per the spec it
takes a field mapping, inserts a new record with a server-assigned id,
stamps `created_at` at insertion time if not already present, and
returns the new id; insertion appends in the store's natural order. -/
def create_document (s : Store) (fields : List (String × Value))
    (newId : String) (now : Nat) : String × Store :=
  let base := ("_id", Value.vOid newId) :: fields
  let doc :=
    if (dGet base "created_at").isSome then base
    else base ++ [("created_at", Value.vTime now)]
  (newId, s ++ [doc])

/-- `list_tasks` (GET /api/tasks), src/main.py lines 75 to 80: 500 when
the handle is unconfigured, else all documents sorted by descending
`created_at`, serialized. -/
def list_tasks (db : Option Store) : Outcome (List (Option Wire)) :=
  match db with
  | none => ⟨Except.error ApiError.notConfigured, none, []⟩
  | some s =>
    match serializeList (listAll s) with
    | Except.error _ =>
        ⟨Except.error ApiError.internalError, some s, [StoreOp.findAllSorted]⟩
    | Except.ok ws => ⟨Except.ok ws, some s, [StoreOp.findAllSorted]⟩

/-- `create_task` (POST /api/tasks), src/main.py lines 83 to 96. The
request body is validated by pydantic before the handler runs; the
handler checks the handle, inserts the new record through
`create_document` with `completed` forced to false, re-reads it and
returns it serialized. `newId` is the server-assigned ObjectId hex and
`now` the insertion clock. -/
def create_task (db : Option Store) (payload : TaskCreate)
    (newId : String) (now : Nat) : Outcome (Option Wire) :=
  if createViolations payload = [] then
    match db with
    | none => ⟨Except.error ApiError.notConfigured, none, []⟩
    | some s =>
      let r := create_document s
        [("title", Value.vStr payload.title),
         ("notes", optVal Value.vStr payload.notes),
         ("priority", Value.vStr payload.priority),
         ("due_date", optVal Value.vTime payload.due_date),
         ("completed", Value.vBool false)] newId now
      match serialize_task (findOne r.2 r.1) with
      | Except.error _ =>
          ⟨Except.error ApiError.internalError, some r.2,
           [StoreOp.insertDoc, StoreOp.findOneById]⟩
      | Except.ok w =>
          ⟨Except.ok w, some r.2, [StoreOp.insertDoc, StoreOp.findOneById]⟩
  else ⟨Except.error (ApiError.validationError (createViolations payload)), db, []⟩

/-- `update_task` (PATCH /api/tasks/task_id), src/main.py lines 99 to
117. Pydantic validation first (before the handler), then the handle
check, then ObjectId parsing, then the presence-based diff; an empty
diff is a 400; otherwise `updated_at` is stamped and the diff applied in
a single `update_one`, 404 when nothing matched, else re-read and
serialize. -/
def update_task (db : Option Store) (task_id : String)
    (payload : TaskUpdate) (now : Nat) : Outcome (Option Wire) :=
  if updateViolations payload = [] then
    match db with
    | none => ⟨Except.error ApiError.notConfigured, none, []⟩
    | some s =>
      if validObjectId task_id then
        if payload.dump = [] then
          ⟨Except.error ApiError.noFieldsToUpdate, some s, []⟩
        else
          let updates := payload.dump ++ [("updated_at", Value.vTime now)]
          let r := updateOne s task_id updates
          if r.1 then
            match serialize_task (findOne r.2 task_id) with
            | Except.error _ =>
                ⟨Except.error ApiError.internalError, some r.2,
                 [StoreOp.updateOneById, StoreOp.findOneById]⟩
            | Except.ok w =>
                ⟨Except.ok w, some r.2,
                 [StoreOp.updateOneById, StoreOp.findOneById]⟩
          else
            ⟨Except.error ApiError.notFound, some r.2, [StoreOp.updateOneById]⟩
      else ⟨Except.error ApiError.invalidIdentifier, some s, []⟩
  else ⟨Except.error (ApiError.validationError (updateViolations payload)), db, []⟩

/-- `toggle_task` (POST /api/tasks/task_id/toggle), src/main.py lines
120 to 135: handle check, ObjectId parsing, read the record (404 when
absent or falsy), negate the coerced `completed`, write it with
`updated_at` in one update, re-read and serialize. -/
def toggle_task (db : Option Store) (task_id : String) (now : Nat) :
    Outcome (Option Wire) :=
  match db with
  | none => ⟨Except.error ApiError.notConfigured, none, []⟩
  | some s =>
    if validObjectId task_id then
      match findOne s task_id with
      | none =>
          ⟨Except.error ApiError.notFound, some s, [StoreOp.findOneById]⟩
      | some d =>
        let newVal := ! truthy (pyGetD d "completed" (Value.vBool false))
        let r := updateOne s task_id
          [("completed", Value.vBool newVal), ("updated_at", Value.vTime now)]
        match serialize_task (findOne r.2 task_id) with
        | Except.error _ =>
            ⟨Except.error ApiError.internalError, some r.2,
             [StoreOp.findOneById, StoreOp.updateOneById, StoreOp.findOneById]⟩
        | Except.ok w =>
            ⟨Except.ok w, some r.2,
             [StoreOp.findOneById, StoreOp.updateOneById, StoreOp.findOneById]⟩
    else ⟨Except.error ApiError.invalidIdentifier, some s, []⟩

/-- `delete_task` (DELETE /api/tasks/task_id), src/main.py lines 138 to
150: handle check, ObjectId parsing, delete the matching record, 404
when nothing was deleted. -/
def delete_task (db : Option Store) (task_id : String) : Outcome Unit :=
  match db with
  | none => ⟨Except.error ApiError.notConfigured, none, []⟩
  | some s =>
    if validObjectId task_id then
      let r := deleteOne s task_id
      if r.1 then ⟨Except.ok (), some r.2, [StoreOp.deleteOneById]⟩
      else ⟨Except.error ApiError.notFound, some r.2, [StoreOp.deleteOneById]⟩
    else ⟨Except.error ApiError.invalidIdentifier, some s, []⟩

/-- Well-typedness of one timestamp slot of a document: the field is
absent, null, or a datetime. Every record this service writes satisfies
it for `due_date`, `created_at` and `updated_at`. -/
def timeOk (d : Doc) (k : String) : Prop :=
  dGet d k = none ∨ dGet d k = some Value.vNull ∨
    ∃ t : Nat, dGet d k = some (Value.vTime t)

instance (d : Doc) (k : String) : Decidable (timeOk d k) := by
  unfold timeOk
  rcases dGet d k with _ | v
  · exact Decidable.isTrue (Or.inl rfl)
  · rcases v with _ | s | b | t | o
    · exact Decidable.isTrue (Or.inr (Or.inl rfl))
    · exact Decidable.isFalse (by simp)
    · exact Decidable.isFalse (by simp)
    · exact Decidable.isTrue (Or.inr (Or.inr ⟨t, rfl⟩))
    · exact Decidable.isFalse (by simp)

/-- The document that `create_task` persists: the server-assigned id,
the payload fields with `completed` forced to false, and the
`created_at` stamp added by the insert helper. -/
def createdDoc (payload : TaskCreate) (newId : String) (now : Nat) : Doc :=
  [("_id", Value.vOid newId),
   ("title", Value.vStr payload.title),
   ("notes", optVal Value.vStr payload.notes),
   ("priority", Value.vStr payload.priority),
   ("due_date", optVal Value.vTime payload.due_date),
   ("completed", Value.vBool false),
   ("created_at", Value.vTime now)]

/-- The wire rendering of one timestamp slot: the ISO string when a
datetime is stored, null when the field is absent or null. -/
def isoVal (d : Doc) (k : String) : Option String :=
  match dGet d k with
  | some (Value.vTime t) => some (isoformat t)
  | _ => none

/-- The wire record that `serialize_task` produces for a well-typed
document. -/
def wireOf (d : Doc) : Wire :=
  ⟨pyStr (pyGet d "_id"),
   pyGet d "title",
   pyGet d "notes",
   pyGetD d "priority" (Value.vStr "normal"),
   isoVal d "due_date",
   truthy (pyGetD d "completed" (Value.vBool false)),
   isoVal d "created_at",
   isoVal d "updated_at"⟩

/-- A PATCH body that supplies `title` as an explicit null and omits
every other field. -/
def nullTitleBody : TaskUpdate :=
  ⟨some none, none, none, none, none⟩

theorem dGet_dSet_self (d : Doc) (k : String) (v : Value) :
    dGet (dSet d k v) k = some v := by
  induction d with
  | nil => simp [dSet, dGet]
  | cons p rest ih =>
    by_cases h : p.1 = k
    · simp [dSet, dGet, h]
    · simp [dSet, dGet, h, ih]

theorem dGet_dSet_ne (d : Doc) (k k2 : String) (v : Value) (h : k2 ≠ k) :
    dGet (dSet d k v) k2 = dGet d k2 := by
  have hks : k ≠ k2 := Ne.symm h
  induction d with
  | nil => simp [dSet, dGet, hks]
  | cons p rest ih =>
    by_cases hk : p.1 = k
    · simp [dSet, dGet, hk, hks]
    · simp [dSet, dGet, hk, ih]

theorem dGet_dSetAll_notMem (d : Doc) (kvs : List (String × Value))
    (k : String) (h : k ∉ kvs.map Prod.fst) :
    dGet (dSetAll d kvs) k = dGet d k := by
  induction kvs generalizing d with
  | nil => rfl
  | cons p rest ih =>
    simp only [List.map_cons, List.mem_cons] at h
    push_neg at h
    have step : dSetAll d (p :: rest) = dSetAll (dSet d p.1 p.2) rest := rfl
    rw [step, ih (dSet d p.1 p.2) h.2, dGet_dSet_ne d p.1 k p.2 h.1]

theorem dGet_dSetAll_mem (d : Doc) (kvs : List (String × Value))
    (k : String) (v : Value) (hnd : (kvs.map Prod.fst).Nodup)
    (hmem : (k, v) ∈ kvs) :
    dGet (dSetAll d kvs) k = some v := by
  induction kvs generalizing d with
  | nil => cases hmem
  | cons p rest ih =>
    simp only [List.map_cons, List.nodup_cons] at hnd
    have step : dSetAll d (p :: rest) = dSetAll (dSet d p.1 p.2) rest := rfl
    rcases List.mem_cons.mp hmem with heq | htail
    · subst heq
      rw [step, dGet_dSetAll_notMem (dSet d k v) rest k hnd.1,
        dGet_dSet_self]
    · rw [step]
      exact ih (dSet d p.1 p.2) hnd.2 htail

theorem updateOne_fst (s : Store) (oid : String)
    (kvs : List (String × Value)) :
    (updateOne s oid kvs).1 = (findOne s oid).isSome := by
  induction s with
  | nil => rfl
  | cons d rest ih =>
    by_cases h : dGet d "_id" = some (Value.vOid oid)
    · simp [updateOne, findOne, h]
    · simp [updateOne, findOne, h, ih]

theorem updateOne_not_found (s : Store) (oid : String)
    (kvs : List (String × Value)) (h : findOne s oid = none) :
    updateOne s oid kvs = (false, s) := by
  induction s with
  | nil => rfl
  | cons d rest ih =>
    by_cases hd : dGet d "_id" = some (Value.vOid oid)
    · simp [findOne, hd] at h
    · simp only [findOne, hd, if_false] at h
      simp [updateOne, hd, ih h]

theorem updateOne_findOne (s : Store) (oid : String)
    (kvs : List (String × Value)) (d : Doc)
    (hfound : findOne s oid = some d)
    (hid : "_id" ∉ kvs.map Prod.fst) :
    (updateOne s oid kvs).1 = true ∧
    findOne (updateOne s oid kvs).2 oid = some (dSetAll d kvs) := by
  induction s with
  | nil => cases hfound
  | cons d0 rest ih =>
    by_cases h0 : dGet d0 "_id" = some (Value.vOid oid)
    · simp only [findOne, h0, if_true, Option.some.injEq] at hfound
      subst hfound
      have hid2 : dGet (dSetAll d0 kvs) "_id" = some (Value.vOid oid) := by
        rw [dGet_dSetAll_notMem d0 kvs "_id" hid]; exact h0
      simp [updateOne, findOne, h0, hid2]
    · simp only [findOne, h0, if_false] at hfound
      have h := ih hfound
      simp [updateOne, findOne, h0, h.1, h.2]

theorem findOne_append_last (s : Store) (oid : String) (d : Doc)
    (hnone : findOne s oid = none)
    (hid : dGet d "_id" = some (Value.vOid oid)) :
    findOne (s ++ [d]) oid = some d := by
  induction s with
  | nil => simp [findOne, hid]
  | cons d0 rest ih =>
    by_cases h0 : dGet d0 "_id" = some (Value.vOid oid)
    · simp [findOne, h0] at hnone
    · simp only [findOne, h0, if_false] at hnone
      simp [findOne, h0, ih hnone]

theorem dump_keys_subset (p : TaskUpdate) (k : String)
    (h : k ∈ p.dump.map Prod.fst) :
    k ∈ ["title", "notes", "priority", "due_date", "completed"] := by
  rcases p with ⟨t, n, pr, dd, c⟩
  rcases t with _ | tv <;> rcases n with _ | nv <;> rcases pr with _ | pv <;>
    rcases dd with _ | dv <;> rcases c with _ | cv <;>
    simp_all [TaskUpdate.dump] <;> tauto

theorem dump_keys_nodup (p : TaskUpdate) : (p.dump.map Prod.fst).Nodup := by
  rcases p with ⟨t, n, pr, dd, c⟩
  rcases t with _ | tv <;> rcases n with _ | nv <;> rcases pr with _ | pv <;>
    rcases dd with _ | dv <;> rcases c with _ | cv <;>
    first
      | decide
      | (simp only [TaskUpdate.dump]; simp; try decide)

theorem dump_nil_violations (p : TaskUpdate) (h : p.dump = []) :
    updateViolations p = [] := by
  rcases p with ⟨t, n, pr, dd, c⟩
  rcases t with _ | tv <;> rcases n with _ | nv <;>
    simp_all [TaskUpdate.dump, updateViolations]

theorem ne_nil_of_dGet (d : Doc) (k : String) (v : Value)
    (h : dGet d k = some v) : d ≠ [] := by
  intro he
  subst he
  simp [dGet] at h

theorem timeOk_congr (d1 d2 : Doc) (k : String)
    (h : dGet d2 k = dGet d1 k) (ht : timeOk d1 k) : timeOk d2 k := by
  unfold timeOk at ht ⊢
  rw [h]
  exact ht

theorem isoOpt_ok_of_timeOk (d : Doc) (k : String) (h : timeOk d k) :
    isoOpt (pyGet d k) = Except.ok (isoVal d k) := by
  rcases h with h | h | ⟨t, h⟩ <;>
    simp [pyGet, h, isoOpt, truthy, isoVal]

theorem serialize_ok_of_timeOk (d : Doc) (hne : d ≠ [])
    (hdd : timeOk d "due_date") (hca : timeOk d "created_at")
    (hua : timeOk d "updated_at") :
    serialize_task (some d) = Except.ok (some (wireOf d)) := by
  have hemp : d.isEmpty = false := by
    cases d with
    | nil => exact absurd rfl hne
    | cons a l => rfl
  simp only [serialize_task, hemp, Bool.false_eq_true, if_false,
    isoOpt_ok_of_timeOk d "due_date" hdd, isoOpt_ok_of_timeOk d "created_at" hca,
    isoOpt_ok_of_timeOk d "updated_at" hua]
  rfl

theorem update_task_success_shape (s : Store) (tid : String)
    (p : TaskUpdate) (now : Nat)
    (hbody : updateViolations p = [])
    (hvalid : validObjectId tid = true)
    (hdump : p.dump ≠ [])
    (hmatched :
      (updateOne s tid (p.dump ++ [("updated_at", Value.vTime now)])).1 = true) :
    (update_task (some s) tid p now).db =
      some ((updateOne s tid (p.dump ++ [("updated_at", Value.vTime now)])).2) ∧
    (update_task (some s) tid p now).ops =
      [StoreOp.updateOneById, StoreOp.findOneById] ∧
    ∀ w,
      serialize_task
        (findOne ((updateOne s tid
          (p.dump ++ [("updated_at", Value.vTime now)])).2) tid) =
        Except.ok w →
      (update_task (some s) tid p now).response = Except.ok w := by
  rcases hser : serialize_task
      (findOne ((updateOne s tid
        (p.dump ++ [("updated_at", Value.vTime now)])).2) tid) with e | w0
  · refine ⟨?_, ?_, ?_⟩ <;>
      simp [update_task, hbody, hvalid, hdump, hmatched, hser]
  · refine ⟨?_, ?_, ?_⟩ <;>
      simp [update_task, hbody, hvalid, hdump, hmatched, hser]

theorem toggle_task_success_shape (s : Store) (tid : String) (now : Nat)
    (d : Doc) (hvalid : validObjectId tid = true)
    (hfound : findOne s tid = some d) :
    (toggle_task (some s) tid now).db =
      some ((updateOne s tid
        [("completed",
          Value.vBool (! truthy (pyGetD d "completed" (Value.vBool false)))),
         ("updated_at", Value.vTime now)]).2) ∧
    (toggle_task (some s) tid now).ops =
      [StoreOp.findOneById, StoreOp.updateOneById, StoreOp.findOneById] ∧
    ∀ w,
      serialize_task
        (findOne ((updateOne s tid
          [("completed",
            Value.vBool (! truthy (pyGetD d "completed" (Value.vBool false)))),
           ("updated_at", Value.vTime now)]).2) tid) =
        Except.ok w →
      (toggle_task (some s) tid now).response = Except.ok w := by
  rcases hser : serialize_task
      (findOne ((updateOne s tid
        [("completed",
          Value.vBool (! truthy (pyGetD d "completed" (Value.vBool false)))),
         ("updated_at", Value.vTime now)]).2) tid) with e | w0
  · refine ⟨?_, ?_, ?_⟩ <;> simp [toggle_task, hvalid, hfound, hser]
  · refine ⟨?_, ?_, ?_⟩ <;> simp [toggle_task, hvalid, hfound, hser]

/-- C2: for every well-formed id against a configured store, an update
request whose explicitly supplied field set is empty fails with the
`NoFieldsToUpdate` error, a 400 client error rather than a no-op
success, the store (hence the stored record and its `updated_at`) is
returned entirely unmodified, and no store operation at all is
performed, so the failure precedes any store write. -/
theorem update_empty_diff_rejected (s : Store) (tid : String)
    (p : TaskUpdate) (now : Nat)
    (hvalid : validObjectId tid = true) (hempty : p.dump = []) :
    update_task (some s) tid p now =
      ⟨Except.error ApiError.noFieldsToUpdate, some s, []⟩ ∧
    ApiError.noFieldsToUpdate.status = 400 := by
  refine ⟨?_, rfl⟩
  simp [update_task, dump_nil_violations p hempty, hvalid, hempty]

/-- Witness for C2 at a concrete store, id and all-fields-omitted body. -/
theorem update_empty_diff_rejected_witness :
    validObjectId "0123456789abcdef01234567" = true ∧
    TaskUpdate.dump ⟨none, none, none, none, none⟩ = [] ∧
    (update_task (some [[("_id", Value.vOid "0123456789abcdef01234567")]])
        "0123456789abcdef01234567" ⟨none, none, none, none, none⟩ 7 =
      ⟨Except.error ApiError.noFieldsToUpdate,
       some [[("_id", Value.vOid "0123456789abcdef01234567")]], []⟩ ∧
     ApiError.noFieldsToUpdate.status = 400) :=
  ⟨by decide, rfl,
   update_empty_diff_rejected [[("_id", Value.vOid "0123456789abcdef01234567")]]
     "0123456789abcdef01234567" ⟨none, none, none, none, none⟩ 7
     (by decide) rfl⟩

/-- C5: on each endpoint that takes an id path parameter (update,
toggle, delete), an identifier that does not parse as the store's
24-character hexadecimal ObjectId format fails with `InvalidIdentifier`
(400), the store is returned unchanged, and the operation trace is
empty: the malformed-id request performs no store read or write. -/
theorem malformed_id_rejected (s : Store) (tid : String)
    (p : TaskUpdate) (now1 now2 : Nat)
    (hbody : updateViolations p = [])
    (hbad : validObjectId tid = false) :
    update_task (some s) tid p now1 =
      ⟨Except.error ApiError.invalidIdentifier, some s, []⟩ ∧
    toggle_task (some s) tid now2 =
      ⟨Except.error ApiError.invalidIdentifier, some s, []⟩ ∧
    delete_task (some s) tid =
      ⟨Except.error ApiError.invalidIdentifier, some s, []⟩ ∧
    ApiError.invalidIdentifier.status = 400 := by
  refine ⟨?_, ?_, ?_, rfl⟩ <;>
    simp [update_task, toggle_task, delete_task, hbody, hbad]

/-- Witness for C5 at a concrete store and the malformed id "not-hex". -/
theorem malformed_id_rejected_witness :
    updateViolations ⟨some (some "T"), none, none, none, none⟩ = [] ∧
    validObjectId "not-hex" = false ∧
    (update_task (some [[("_id", Value.vOid "0123456789abcdef01234567")]])
        "not-hex" ⟨some (some "T"), none, none, none, none⟩ 1 =
      ⟨Except.error ApiError.invalidIdentifier,
       some [[("_id", Value.vOid "0123456789abcdef01234567")]], []⟩ ∧
     toggle_task (some [[("_id", Value.vOid "0123456789abcdef01234567")]])
        "not-hex" 2 =
      ⟨Except.error ApiError.invalidIdentifier,
       some [[("_id", Value.vOid "0123456789abcdef01234567")]], []⟩ ∧
     delete_task (some [[("_id", Value.vOid "0123456789abcdef01234567")]])
        "not-hex" =
      ⟨Except.error ApiError.invalidIdentifier,
       some [[("_id", Value.vOid "0123456789abcdef01234567")]], []⟩ ∧
     ApiError.invalidIdentifier.status = 400) :=
  ⟨by decide, by decide,
   malformed_id_rejected [[("_id", Value.vOid "0123456789abcdef01234567")]]
     "not-hex" ⟨some (some "T"), none, none, none, none⟩ 1 2
     (by decide) (by decide)⟩

/-- C10: when the database handle is unconfigured, every data endpoint
(list, create, update, toggle, delete) answers the 500 "not configured"
error with an empty store-operation trace, so no store access or state
change ever happens (the bodies of create and update are assumed to
pass the request validation that runs before the handler). -/
theorem unconfigured_db_rejected (p : TaskCreate) (q : TaskUpdate)
    (tid newId : String) (now : Nat)
    (hc : createViolations p = []) (hu : updateViolations q = []) :
    list_tasks none = ⟨Except.error ApiError.notConfigured, none, []⟩ ∧
    create_task none p newId now =
      ⟨Except.error ApiError.notConfigured, none, []⟩ ∧
    update_task none tid q now =
      ⟨Except.error ApiError.notConfigured, none, []⟩ ∧
    toggle_task none tid now =
      ⟨Except.error ApiError.notConfigured, none, []⟩ ∧
    delete_task none tid = ⟨Except.error ApiError.notConfigured, none, []⟩ ∧
    ApiError.notConfigured.status = 500 := by
  refine ⟨rfl, ?_, ?_, rfl, rfl, rfl⟩
  · simp [create_task, hc]
  · simp [update_task, hu]

/-- Witness for C10 at concrete valid bodies and id. -/
theorem unconfigured_db_rejected_witness :
    createViolations ⟨"T", none, "normal", none⟩ = [] ∧
    updateViolations ⟨some (some "T"), none, none, none, none⟩ = [] ∧
    (list_tasks none = ⟨Except.error ApiError.notConfigured, none, []⟩ ∧
     create_task none ⟨"T", none, "normal", none⟩ "0123456789abcdef01234567" 1 =
       ⟨Except.error ApiError.notConfigured, none, []⟩ ∧
     update_task none "0123456789abcdef01234567"
         ⟨some (some "T"), none, none, none, none⟩ 1 =
       ⟨Except.error ApiError.notConfigured, none, []⟩ ∧
     toggle_task none "0123456789abcdef01234567" 1 =
       ⟨Except.error ApiError.notConfigured, none, []⟩ ∧
     delete_task none "0123456789abcdef01234567" =
       ⟨Except.error ApiError.notConfigured, none, []⟩ ∧
     ApiError.notConfigured.status = 500) :=
  ⟨by decide, by decide,
   unconfigured_db_rejected ⟨"T", none, "normal", none⟩
     ⟨some (some "T"), none, none, none, none⟩
     "0123456789abcdef01234567" "0123456789abcdef01234567" 1
     (by decide) (by decide)⟩

/-- C8: the update endpoint applies the create-time per-field length
constraints to supplied values: a supplied empty or over-200-character
title, or supplied notes longer than 2000 characters, fails with the
per-field `ValidationError` (422) naming the offending field, the store
is returned untouched and the operation trace is empty, so no store
write occurs. -/
theorem update_validation_rejected (s : Store) (tid : String)
    (p : TaskUpdate) (now : Nat) :
    (∀ t : String, p.title = some (some t) →
      t.length = 0 ∨ 200 < t.length →
      update_task (some s) tid p now =
        ⟨Except.error (ApiError.validationError (updateViolations p)),
         some s, []⟩ ∧
      "title" ∈ updateViolations p) ∧
    (∀ n : String, p.notes = some (some n) → 2000 < n.length →
      update_task (some s) tid p now =
        ⟨Except.error (ApiError.validationError (updateViolations p)),
         some s, []⟩ ∧
      "notes" ∈ updateViolations p) ∧
    (ApiError.validationError (updateViolations p)).status = 422 := by
  refine ⟨?_, ?_, rfl⟩
  · intro t ht hlen
    have hbad : ¬(1 ≤ t.length ∧ t.length ≤ 200) := by omega
    have hmem : "title" ∈ updateViolations p := by
      simp [updateViolations, ht, hbad]
    have hne : updateViolations p ≠ [] := List.ne_nil_of_mem hmem
    exact ⟨by simp [update_task, hne], hmem⟩
  · intro n hn hlen
    have hbad : ¬(n.length ≤ 2000) := by omega
    have hmem : "notes" ∈ updateViolations p := by
      rcases p with ⟨t, n0, pr, dd, c⟩
      simp only at hn
      subst hn
      rcases t with _ | tv
      · simp [updateViolations, hbad]
      · rcases tv with _ | ts
        · simp [updateViolations, hbad]
        · by_cases hts : 1 ≤ ts.length ∧ ts.length ≤ 200 <;>
            simp [updateViolations, hbad, hts]
    have hne : updateViolations p ≠ [] := List.ne_nil_of_mem hmem
    exact ⟨by simp [update_task, hne], hmem⟩

/-- Witness for C8 at a concrete empty-title body. -/
theorem update_validation_rejected_witness :
    TaskUpdate.title ⟨some (some ""), none, none, none, none⟩ = some (some "") ∧
    String.length "" = 0 ∧
    (update_task (some []) "0123456789abcdef01234567"
        ⟨some (some ""), none, none, none, none⟩ 3 =
      ⟨Except.error (ApiError.validationError
         (updateViolations ⟨some (some ""), none, none, none, none⟩)),
       some [], []⟩ ∧
     "title" ∈ updateViolations ⟨some (some ""), none, none, none, none⟩) :=
  ⟨rfl, rfl,
   (update_validation_rejected [] "0123456789abcdef01234567"
      ⟨some (some ""), none, none, none, none⟩ 3).1 "" rfl (Or.inl rfl)⟩

/-- C4: serialization of a persisted record (whose timestamp slots are,
as the data model requires, absent, null or datetimes) is deterministic
and never raises; a missing record passes through; `priority` maps to
the stored value with "normal" as the absent default, `completed` is
coerced to a boolean defaulting to false when absent, and each of
`due_date`, `created_at`, `updated_at` maps to an ISO string when a
datetime is stored and to null when absent or null. -/
theorem serialize_total_with_defaults (d : Doc) (hne : d ≠ [])
    (hdd : timeOk d "due_date") (hca : timeOk d "created_at")
    (hua : timeOk d "updated_at") :
    serialize_task none = Except.ok none ∧
    ∃ w : Wire, serialize_task (some d) = Except.ok (some w) ∧
      w.priority = pyGetD d "priority" (Value.vStr "normal") ∧
      (dGet d "priority" = none → w.priority = Value.vStr "normal") ∧
      w.completed = truthy (pyGetD d "completed" (Value.vBool false)) ∧
      (dGet d "completed" = none → w.completed = false) ∧
      (∀ t, dGet d "due_date" = some (Value.vTime t) →
        w.due_date = some (isoformat t)) ∧
      (dGet d "due_date" = none → w.due_date = none) ∧
      (∀ t, dGet d "created_at" = some (Value.vTime t) →
        w.created_at = some (isoformat t)) ∧
      (dGet d "created_at" = none → w.created_at = none) ∧
      (∀ t, dGet d "updated_at" = some (Value.vTime t) →
        w.updated_at = some (isoformat t)) ∧
      (dGet d "updated_at" = none → w.updated_at = none) := by
  refine ⟨rfl, wireOf d, serialize_ok_of_timeOk d hne hdd hca hua,
    rfl, ?_, rfl, ?_, ?_, ?_, ?_, ?_, ?_, ?_⟩
  · intro h; simp [wireOf, pyGetD, h]
  · intro h; simp [wireOf, pyGetD, h, truthy]
  · intro t h; simp [wireOf, isoVal, h]
  · intro h; simp [wireOf, isoVal, h]
  · intro t h; simp [wireOf, isoVal, h]
  · intro h; simp [wireOf, isoVal, h]
  · intro t h; simp [wireOf, isoVal, h]
  · intro h; simp [wireOf, isoVal, h]

/-- Witness for C4 at a partially-formed record holding only an id and
a title: every optional field serializes to its documented default. -/
theorem serialize_total_with_defaults_witness :
    ([("_id", Value.vOid "0123456789abcdef01234567"),
      ("title", Value.vStr "T")] : Doc) ≠ [] ∧
    timeOk [("_id", Value.vOid "0123456789abcdef01234567"),
      ("title", Value.vStr "T")] "due_date" ∧
    (serialize_task none = Except.ok none ∧
     ∃ w : Wire,
       serialize_task (some [("_id", Value.vOid "0123456789abcdef01234567"),
         ("title", Value.vStr "T")]) = Except.ok (some w) ∧
       w.priority = pyGetD [("_id", Value.vOid "0123456789abcdef01234567"),
         ("title", Value.vStr "T")] "priority" (Value.vStr "normal") ∧
       (dGet [("_id", Value.vOid "0123456789abcdef01234567"),
         ("title", Value.vStr "T")] "priority" = none →
           w.priority = Value.vStr "normal") ∧
       w.completed = truthy (pyGetD
         [("_id", Value.vOid "0123456789abcdef01234567"),
          ("title", Value.vStr "T")] "completed" (Value.vBool false)) ∧
       (dGet [("_id", Value.vOid "0123456789abcdef01234567"),
         ("title", Value.vStr "T")] "completed" = none →
           w.completed = false) ∧
       (∀ t, dGet [("_id", Value.vOid "0123456789abcdef01234567"),
         ("title", Value.vStr "T")] "due_date" = some (Value.vTime t) →
           w.due_date = some (isoformat t)) ∧
       (dGet [("_id", Value.vOid "0123456789abcdef01234567"),
         ("title", Value.vStr "T")] "due_date" = none → w.due_date = none) ∧
       (∀ t, dGet [("_id", Value.vOid "0123456789abcdef01234567"),
         ("title", Value.vStr "T")] "created_at" = some (Value.vTime t) →
           w.created_at = some (isoformat t)) ∧
       (dGet [("_id", Value.vOid "0123456789abcdef01234567"),
         ("title", Value.vStr "T")] "created_at" = none →
           w.created_at = none) ∧
       (∀ t, dGet [("_id", Value.vOid "0123456789abcdef01234567"),
         ("title", Value.vStr "T")] "updated_at" = some (Value.vTime t) →
           w.updated_at = some (isoformat t)) ∧
       (dGet [("_id", Value.vOid "0123456789abcdef01234567"),
         ("title", Value.vStr "T")] "updated_at" = none →
           w.updated_at = none)) :=
  ⟨by decide, by decide,
   serialize_total_with_defaults
     [("_id", Value.vOid "0123456789abcdef01234567"),
      ("title", Value.vStr "T")]
     (by decide) (by decide) (by decide) (by decide)⟩

/-- C1: a partial update against a stored task changes exactly the
fields explicitly supplied in the request plus `updated_at`: in the
re-readable stored record after the update, every field not named in
the supplied diff (other than `updated_at`) keeps its previous value,
every supplied field holds exactly the supplied value (an explicit null
clears the field to null, so omitting notes leaves them unchanged while
a supplied null notes value stores null), and `updated_at` holds the
update clock. -/
theorem update_frame (s : Store) (tid : String) (p : TaskUpdate)
    (now : Nat) (d : Doc)
    (hbody : updateViolations p = [])
    (hvalid : validObjectId tid = true)
    (hdump : p.dump ≠ [])
    (hfound : findOne s tid = some d) :
    ∃ s2 d2,
      (update_task (some s) tid p now).db = some s2 ∧
      findOne s2 tid = some d2 ∧
      (∀ k, k ∉ p.dump.map Prod.fst → k ≠ "updated_at" →
        dGet d2 k = dGet d k) ∧
      (∀ k v, (k, v) ∈ p.dump → dGet d2 k = some v) ∧
      dGet d2 "updated_at" = some (Value.vTime now) := by
  have hupd : "updated_at" ∉ p.dump.map Prod.fst := by
    intro h
    have hsub := dump_keys_subset p "updated_at" h
    simp at hsub
  have hid : "_id" ∉
      (p.dump ++ [("updated_at", Value.vTime now)]).map Prod.fst := by
    simp only [List.map_append, List.mem_append]
    rintro (h | h)
    · have hsub := dump_keys_subset p "_id" h
      simp at hsub
    · simp at h
  have hnd : ((p.dump ++ [("updated_at", Value.vTime now)]).map
      Prod.fst).Nodup := by
    simp only [List.map_append]
    refine List.Nodup.append (dump_keys_nodup p) (by simp) ?_
    intro a ha hb
    simp only [List.map_cons, List.map_nil, List.mem_cons,
      List.not_mem_nil, or_false] at hb
    subst hb
    exact hupd ha
  have h2 := updateOne_findOne s tid
    (p.dump ++ [("updated_at", Value.vTime now)]) d hfound hid
  have hshape := update_task_success_shape s tid p now hbody hvalid hdump h2.1
  refine ⟨(updateOne s tid (p.dump ++ [("updated_at", Value.vTime now)])).2,
    dSetAll d (p.dump ++ [("updated_at", Value.vTime now)]),
    hshape.1, h2.2, ?_, ?_, ?_⟩
  · intro k hk hk2
    refine dGet_dSetAll_notMem d _ k ?_
    simp only [List.map_append, List.mem_append]
    rintro (h | h)
    · exact hk h
    · simp only [List.map_cons, List.map_nil, List.mem_cons,
        List.not_mem_nil, or_false] at h
      exact hk2 h
  · intro k v hm
    exact dGet_dSetAll_mem d _ k v hnd (List.mem_append_left _ hm)
  · exact dGet_dSetAll_mem d _ "updated_at" (Value.vTime now) hnd
      (List.mem_append_right _ (List.mem_singleton.mpr rfl))

/-- Witness for C1: updating a task that has stored notes with a body
supplying only a title leaves the stored notes (an unsupplied field)
unchanged and sets the supplied title. -/
theorem update_frame_witness :
    updateViolations ⟨some (some "T2"), none, none, none, none⟩ = [] ∧
    validObjectId "0123456789abcdef01234567" = true ∧
    TaskUpdate.dump ⟨some (some "T2"), none, none, none, none⟩ ≠ [] ∧
    findOne [[("_id", Value.vOid "0123456789abcdef01234567"),
        ("title", Value.vStr "T"), ("notes", Value.vStr "keep")]]
      "0123456789abcdef01234567" =
      some [("_id", Value.vOid "0123456789abcdef01234567"),
        ("title", Value.vStr "T"), ("notes", Value.vStr "keep")] ∧
    (∃ s2 d2,
      (update_task
        (some [[("_id", Value.vOid "0123456789abcdef01234567"),
          ("title", Value.vStr "T"), ("notes", Value.vStr "keep")]])
        "0123456789abcdef01234567"
        ⟨some (some "T2"), none, none, none, none⟩ 9).db = some s2 ∧
      findOne s2 "0123456789abcdef01234567" = some d2 ∧
      (∀ k, k ∉ (TaskUpdate.dump
          ⟨some (some "T2"), none, none, none, none⟩).map Prod.fst →
        k ≠ "updated_at" →
        dGet d2 k = dGet [("_id", Value.vOid "0123456789abcdef01234567"),
          ("title", Value.vStr "T"), ("notes", Value.vStr "keep")] k) ∧
      (∀ k v, (k, v) ∈ TaskUpdate.dump
          ⟨some (some "T2"), none, none, none, none⟩ →
        dGet d2 k = some v) ∧
      dGet d2 "updated_at" = some (Value.vTime 9)) :=
  ⟨by decide, by decide, by decide, by decide,
   update_frame [[("_id", Value.vOid "0123456789abcdef01234567"),
       ("title", Value.vStr "T"), ("notes", Value.vStr "keep")]]
     "0123456789abcdef01234567" ⟨some (some "T2"), none, none, none, none⟩
     9 [("_id", Value.vOid "0123456789abcdef01234567"),
       ("title", Value.vStr "T"), ("notes", Value.vStr "keep")]
     (by decide) (by decide) (by decide) (by decide)⟩

/-- C7: a PATCH body supplying `title` as an explicit null and nothing
else passes request validation (the 1 to 200 length constraint applies
only to supplied strings), the null is written to the store, and the
serialized response carries a null title, even though title is required
and non-empty at creation. The stored task's timestamp slots are
well-typed as the data model requires. -/
theorem update_null_title_accepted (s : Store) (tid : String) (now : Nat)
    (d : Doc) (hvalid : validObjectId tid = true)
    (hfound : findOne s tid = some d)
    (hdd : timeOk d "due_date") (hca : timeOk d "created_at") :
    updateViolations nullTitleBody = [] ∧
    ∃ s2 w,
      (update_task (some s) tid nullTitleBody now).response =
        Except.ok (some w) ∧
      (update_task (some s) tid nullTitleBody now).db = some s2 ∧
      findOne s2 tid =
        some (dSetAll d
          [("title", Value.vNull), ("updated_at", Value.vTime now)]) ∧
      dGet (dSetAll d
          [("title", Value.vNull), ("updated_at", Value.vTime now)])
        "title" = some Value.vNull ∧
      w.title = Value.vNull := by
  have hdumpEq : nullTitleBody.dump = [("title", Value.vNull)] := rfl
  have hdump : nullTitleBody.dump ≠ [] := by rw [hdumpEq]; simp
  have hid : "_id" ∉
      ((nullTitleBody.dump ++ [("updated_at", Value.vTime now)]).map
        Prod.fst) := by
    rw [hdumpEq]; simp
  have h2 := updateOne_findOne s tid
    (nullTitleBody.dump ++ [("updated_at", Value.vTime now)]) d hfound hid
  have hshape := update_task_success_shape s tid nullTitleBody now rfl
    hvalid hdump h2.1
  have hkvs : nullTitleBody.dump ++ [("updated_at", Value.vTime now)] =
      [("title", Value.vNull), ("updated_at", Value.vTime now)] := by
    rw [hdumpEq]; rfl
  rw [hkvs] at h2 hshape
  have htitle : dGet (dSetAll d
      [("title", Value.vNull), ("updated_at", Value.vTime now)])
      "title" = some Value.vNull := by
    refine dGet_dSetAll_mem d _ "title" Value.vNull ?_ ?_
    · simp
    · simp
  have hup : dGet (dSetAll d
      [("title", Value.vNull), ("updated_at", Value.vTime now)])
      "updated_at" = some (Value.vTime now) := by
    refine dGet_dSetAll_mem d _ "updated_at" (Value.vTime now) ?_ ?_
    · simp
    · simp
  have hne2 : dSetAll d
      [("title", Value.vNull), ("updated_at", Value.vTime now)] ≠ [] :=
    ne_nil_of_dGet _ "updated_at" (Value.vTime now) hup
  have hdd2 : timeOk (dSetAll d
      [("title", Value.vNull), ("updated_at", Value.vTime now)])
      "due_date" := by
    refine timeOk_congr d _ "due_date" ?_ hdd
    refine dGet_dSetAll_notMem d _ "due_date" ?_
    simp
  have hca2 : timeOk (dSetAll d
      [("title", Value.vNull), ("updated_at", Value.vTime now)])
      "created_at" := by
    refine timeOk_congr d _ "created_at" ?_ hca
    refine dGet_dSetAll_notMem d _ "created_at" ?_
    simp
  have hua2 : timeOk (dSetAll d
      [("title", Value.vNull), ("updated_at", Value.vTime now)])
      "updated_at" := Or.inr (Or.inr ⟨now, hup⟩)
  have hser := serialize_ok_of_timeOk _ hne2 hdd2 hca2 hua2
  refine ⟨rfl,
    (updateOne s tid
      [("title", Value.vNull), ("updated_at", Value.vTime now)]).2,
    wireOf (dSetAll d
      [("title", Value.vNull), ("updated_at", Value.vTime now)]),
    ?_, hshape.1, h2.2, htitle, ?_⟩
  · refine hshape.2.2 _ ?_
    rw [h2.2, hser]
  · simp [wireOf, pyGet, htitle]

/-- Witness for C7: the explicit-null-title PATCH against a one-task
store stores a null title and returns it serialized as null. -/
theorem update_null_title_accepted_witness :
    validObjectId "0123456789abcdef01234567" = true ∧
    findOne [[("_id", Value.vOid "0123456789abcdef01234567"),
        ("title", Value.vStr "T"), ("created_at", Value.vTime 1)]]
      "0123456789abcdef01234567" =
      some [("_id", Value.vOid "0123456789abcdef01234567"),
        ("title", Value.vStr "T"), ("created_at", Value.vTime 1)] ∧
    (updateViolations nullTitleBody = [] ∧
     ∃ s2 w,
       (update_task
         (some [[("_id", Value.vOid "0123456789abcdef01234567"),
           ("title", Value.vStr "T"), ("created_at", Value.vTime 1)]])
         "0123456789abcdef01234567" nullTitleBody 8).response =
         Except.ok (some w) ∧
       (update_task
         (some [[("_id", Value.vOid "0123456789abcdef01234567"),
           ("title", Value.vStr "T"), ("created_at", Value.vTime 1)]])
         "0123456789abcdef01234567" nullTitleBody 8).db = some s2 ∧
       findOne s2 "0123456789abcdef01234567" =
         some (dSetAll [("_id", Value.vOid "0123456789abcdef01234567"),
             ("title", Value.vStr "T"), ("created_at", Value.vTime 1)]
           [("title", Value.vNull), ("updated_at", Value.vTime 8)]) ∧
       dGet (dSetAll [("_id", Value.vOid "0123456789abcdef01234567"),
             ("title", Value.vStr "T"), ("created_at", Value.vTime 1)]
           [("title", Value.vNull), ("updated_at", Value.vTime 8)])
         "title" = some Value.vNull ∧
       w.title = Value.vNull) :=
  ⟨by decide, by decide,
   update_null_title_accepted
     [[("_id", Value.vOid "0123456789abcdef01234567"),
       ("title", Value.vStr "T"), ("created_at", Value.vTime 1)]]
     "0123456789abcdef01234567" 8
     [("_id", Value.vOid "0123456789abcdef01234567"),
       ("title", Value.vStr "T"), ("created_at", Value.vTime 1)]
     (by decide) (by decide) (by decide) (by decide)⟩

/-- C3: toggling a stored task whose coerced completed value is c
writes completed = not c together with updated_at = now in a single
update (the trace shows exactly one update operation), so toggling the
same task twice brings its stored completed field back to c; toggling a
well-formed id with no matching record fails with NotFound (404). -/
theorem toggle_involution (s : Store) (tid : String) (now1 now2 : Nat)
    (d : Doc) (hvalid : validObjectId tid = true) :
    (findOne s tid = none →
      (toggle_task (some s) tid now1).response =
        Except.error ApiError.notFound ∧
      (toggle_task (some s) tid now1).db = some s ∧
      ApiError.notFound.status = 404) ∧
    (findOne s tid = some d →
      ∃ s1 d1 s2 d2,
        (toggle_task (some s) tid now1).db = some s1 ∧
        (toggle_task (some s) tid now1).ops =
          [StoreOp.findOneById, StoreOp.updateOneById,
           StoreOp.findOneById] ∧
        findOne s1 tid = some d1 ∧
        dGet d1 "completed" = some (Value.vBool
          (! truthy (pyGetD d "completed" (Value.vBool false)))) ∧
        dGet d1 "updated_at" = some (Value.vTime now1) ∧
        (toggle_task (some s1) tid now2).db = some s2 ∧
        (toggle_task (some s1) tid now2).ops =
          [StoreOp.findOneById, StoreOp.updateOneById,
           StoreOp.findOneById] ∧
        findOne s2 tid = some d2 ∧
        dGet d2 "completed" = some (Value.vBool
          (truthy (pyGetD d "completed" (Value.vBool false)))) ∧
        dGet d2 "updated_at" = some (Value.vTime now2)) := by
  constructor
  · intro hnone
    refine ⟨?_, ?_, rfl⟩ <;> simp [toggle_task, hvalid, hnone]
  · intro hfound
    set c := truthy (pyGetD d "completed" (Value.vBool false)) with hc
    have h1 := updateOne_findOne s tid
      [("completed", Value.vBool (!c)), ("updated_at", Value.vTime now1)]
      d hfound (by simp)
    have hshape1 := toggle_task_success_shape s tid now1 d hvalid hfound
    have hc1 : dGet (dSetAll d
        [("completed", Value.vBool (!c)),
         ("updated_at", Value.vTime now1)]) "completed" =
        some (Value.vBool (!c)) :=
      dGet_dSetAll_mem d _ "completed" (Value.vBool (!c))
        (by simp) (by simp)
    have hu1 : dGet (dSetAll d
        [("completed", Value.vBool (!c)),
         ("updated_at", Value.vTime now1)]) "updated_at" =
        some (Value.vTime now1) :=
      dGet_dSetAll_mem d _ "updated_at" (Value.vTime now1)
        (by simp) (by simp)
    have hgetD1 : pyGetD (dSetAll d
        [("completed", Value.vBool (!c)),
         ("updated_at", Value.vTime now1)]) "completed"
        (Value.vBool false) = Value.vBool (!c) := by
      unfold pyGetD
      rw [hc1]
      rfl
    have hval2 : (! truthy (pyGetD (dSetAll d
        [("completed", Value.vBool (!c)),
         ("updated_at", Value.vTime now1)]) "completed"
        (Value.vBool false))) = c := by
      rw [hgetD1]
      simp [truthy]
    have hshape2 := toggle_task_success_shape
      (updateOne s tid
        [("completed", Value.vBool (!c)),
         ("updated_at", Value.vTime now1)]).2 tid now2
      (dSetAll d
        [("completed", Value.vBool (!c)),
         ("updated_at", Value.vTime now1)]) hvalid h1.2
    rw [hval2] at hshape2
    have h2 := updateOne_findOne
      (updateOne s tid
        [("completed", Value.vBool (!c)),
         ("updated_at", Value.vTime now1)]).2 tid
      [("completed", Value.vBool c), ("updated_at", Value.vTime now2)]
      (dSetAll d
        [("completed", Value.vBool (!c)),
         ("updated_at", Value.vTime now1)]) h1.2 (by simp)
    have hc2 : dGet (dSetAll (dSetAll d
        [("completed", Value.vBool (!c)),
         ("updated_at", Value.vTime now1)])
        [("completed", Value.vBool c),
         ("updated_at", Value.vTime now2)]) "completed" =
        some (Value.vBool c) :=
      dGet_dSetAll_mem _ _ "completed" (Value.vBool c)
        (by simp) (by simp)
    have hu2 : dGet (dSetAll (dSetAll d
        [("completed", Value.vBool (!c)),
         ("updated_at", Value.vTime now1)])
        [("completed", Value.vBool c),
         ("updated_at", Value.vTime now2)]) "updated_at" =
        some (Value.vTime now2) :=
      dGet_dSetAll_mem _ _ "updated_at" (Value.vTime now2)
        (by simp) (by simp)
    exact ⟨_, _, _, _, hshape1.1, hshape1.2.1, h1.2, hc1, hu1,
      hshape2.1, hshape2.2.1, h2.2, hc2, hu2⟩

/-- Witness for C3: a concrete incomplete task toggled twice at a
well-formed id, and a missing well-formed id answering NotFound. -/
theorem toggle_involution_witness :
    validObjectId "0123456789abcdef01234567" = true ∧
    findOne [[("_id", Value.vOid "0123456789abcdef01234567"),
        ("completed", Value.vBool false)]] "0123456789abcdef01234567" =
      some [("_id", Value.vOid "0123456789abcdef01234567"),
        ("completed", Value.vBool false)] ∧
    (∃ s1 d1 s2 d2,
      (toggle_task (some [[("_id", Value.vOid "0123456789abcdef01234567"),
          ("completed", Value.vBool false)]])
        "0123456789abcdef01234567" 4).db = some s1 ∧
      (toggle_task (some [[("_id", Value.vOid "0123456789abcdef01234567"),
          ("completed", Value.vBool false)]])
        "0123456789abcdef01234567" 4).ops =
        [StoreOp.findOneById, StoreOp.updateOneById, StoreOp.findOneById] ∧
      findOne s1 "0123456789abcdef01234567" = some d1 ∧
      dGet d1 "completed" = some (Value.vBool
        (! truthy (pyGetD [("_id", Value.vOid "0123456789abcdef01234567"),
          ("completed", Value.vBool false)] "completed"
          (Value.vBool false)))) ∧
      dGet d1 "updated_at" = some (Value.vTime 4) ∧
      (toggle_task (some s1) "0123456789abcdef01234567" 5).db = some s2 ∧
      (toggle_task (some s1) "0123456789abcdef01234567" 5).ops =
        [StoreOp.findOneById, StoreOp.updateOneById, StoreOp.findOneById] ∧
      findOne s2 "0123456789abcdef01234567" = some d2 ∧
      dGet d2 "completed" = some (Value.vBool
        (truthy (pyGetD [("_id", Value.vOid "0123456789abcdef01234567"),
          ("completed", Value.vBool false)] "completed"
          (Value.vBool false)))) ∧
      dGet d2 "updated_at" = some (Value.vTime 5)) :=
  ⟨by decide, by decide,
   (toggle_involution [[("_id", Value.vOid "0123456789abcdef01234567"),
       ("completed", Value.vBool false)]] "0123456789abcdef01234567" 4 5
     [("_id", Value.vOid "0123456789abcdef01234567"),
       ("completed", Value.vBool false)] (by decide)).2 (by decide)⟩

/-- C6: a create request with a valid body against a configured store
persists exactly one new record (the store grows by the created
document, appended at the end), with completed stored as false
regardless of the payload, which carries no completed field at all,
and created_at stamped; updated_at is absent in the stored record and
null on the returned serialized re-read record, and the endpoint
answers with status 201. -/
theorem create_persists_record (s : Store) (p : TaskCreate)
    (newId : String) (now : Nat)
    (hbody : createViolations p = [])
    (hfresh : findOne s newId = none) :
    create_task (some s) p newId now =
      ⟨Except.ok (some (wireOf (createdDoc p newId now))),
       some (s ++ [createdDoc p newId now]),
       [StoreOp.insertDoc, StoreOp.findOneById]⟩ ∧
    dGet (createdDoc p newId now) "completed" =
      some (Value.vBool false) ∧
    dGet (createdDoc p newId now) "created_at" =
      some (Value.vTime now) ∧
    dGet (createdDoc p newId now) "updated_at" = none ∧
    (wireOf (createdDoc p newId now)).completed = false ∧
    (wireOf (createdDoc p newId now)).created_at =
      some (isoformat now) ∧
    (wireOf (createdDoc p newId now)).updated_at = none ∧
    createSuccessStatus = 201 := by
  have hdocid : dGet (createdDoc p newId now) "_id" =
      some (Value.vOid newId) := by
    simp [createdDoc, dGet]
  have hcompleted : dGet (createdDoc p newId now) "completed" =
      some (Value.vBool false) := by
    simp [createdDoc, dGet]
  have hcreated : dGet (createdDoc p newId now) "created_at" =
      some (Value.vTime now) := by
    simp [createdDoc, dGet]
  have hupdated : dGet (createdDoc p newId now) "updated_at" = none := by
    simp [createdDoc, dGet]
  have hfind : findOne (s ++ [createdDoc p newId now]) newId =
      some (createdDoc p newId now) :=
    findOne_append_last s newId _ hfresh hdocid
  have hdd : timeOk (createdDoc p newId now) "due_date" := by
    have hg : dGet (createdDoc p newId now) "due_date" =
        some (optVal Value.vTime p.due_date) := by
      simp [createdDoc, dGet]
    rcases hdu : p.due_date with _ | t
    · rw [hdu] at hg
      exact Or.inr (Or.inl hg)
    · rw [hdu] at hg
      exact Or.inr (Or.inr ⟨t, hg⟩)
  have hca : timeOk (createdDoc p newId now) "created_at" :=
    Or.inr (Or.inr ⟨now, hcreated⟩)
  have hua : timeOk (createdDoc p newId now) "updated_at" :=
    Or.inl hupdated
  have hne : createdDoc p newId now ≠ [] := by simp [createdDoc]
  have hser := serialize_ok_of_timeOk (createdDoc p newId now)
    hne hdd hca hua
  have hcd : create_document s
      [("title", Value.vStr p.title),
       ("notes", optVal Value.vStr p.notes),
       ("priority", Value.vStr p.priority),
       ("due_date", optVal Value.vTime p.due_date),
       ("completed", Value.vBool false)] newId now =
      (newId, s ++ [createdDoc p newId now]) := by
    simp [create_document, dGet, createdDoc]
  refine ⟨?_, hcompleted, hcreated, hupdated, ?_, ?_, ?_, rfl⟩
  · simp [create_task, hbody, hcd, hfind, hser]
  · simp [wireOf, pyGetD, hcompleted, truthy]
  · simp [wireOf, isoVal, hcreated]
  · simp [wireOf, isoVal, hupdated]

/-- Witness for C6 at a concrete valid body on the empty store. -/
theorem create_persists_record_witness :
    createViolations ⟨"T", none, "normal", none⟩ = [] ∧
    findOne [] "0123456789abcdef01234567" = none ∧
    (create_task (some []) ⟨"T", none, "normal", none⟩
        "0123456789abcdef01234567" 5 =
      ⟨Except.ok (some (wireOf
         (createdDoc ⟨"T", none, "normal", none⟩
           "0123456789abcdef01234567" 5))),
       some ([] ++ [createdDoc ⟨"T", none, "normal", none⟩
         "0123456789abcdef01234567" 5]),
       [StoreOp.insertDoc, StoreOp.findOneById]⟩ ∧
     dGet (createdDoc ⟨"T", none, "normal", none⟩
       "0123456789abcdef01234567" 5) "completed" =
       some (Value.vBool false) ∧
     dGet (createdDoc ⟨"T", none, "normal", none⟩
       "0123456789abcdef01234567" 5) "created_at" =
       some (Value.vTime 5) ∧
     dGet (createdDoc ⟨"T", none, "normal", none⟩
       "0123456789abcdef01234567" 5) "updated_at" = none ∧
     (wireOf (createdDoc ⟨"T", none, "normal", none⟩
       "0123456789abcdef01234567" 5)).completed = false ∧
     (wireOf (createdDoc ⟨"T", none, "normal", none⟩
       "0123456789abcdef01234567" 5)).created_at =
       some (isoformat 5) ∧
     (wireOf (createdDoc ⟨"T", none, "normal", none⟩
       "0123456789abcdef01234567" 5)).updated_at = none ∧
     createSuccessStatus = 201) :=
  ⟨by decide, by decide,
   create_persists_record [] ⟨"T", none, "normal", none⟩
     "0123456789abcdef01234567" 5 (by decide) (by decide)⟩

/-- C9: the list endpoint leaves the store untouched (one read, no
write), and its result enumerates every stored record: the retrieved
sequence is a permutation of the store sorted by descending created_at,
the response is its serialization, and the empty store yields the empty
list. -/
theorem list_tasks_sorted (s : Store) :
    (list_tasks (some s)).db = some s ∧
    (list_tasks (some s)).ops = [StoreOp.findAllSorted] ∧
    List.Sorted descRel (listAll s) ∧
    (listAll s).Perm s ∧
    (∀ ws, serializeList (listAll s) = Except.ok ws →
      (list_tasks (some s)).response = Except.ok ws) ∧
    list_tasks (some []) = ⟨Except.ok [], some [], [StoreOp.findAllSorted]⟩ := by
  refine ⟨?_, ?_, ?_, ?_, ?_, rfl⟩
  · rcases h : serializeList (listAll s) with e | ws <;> simp [list_tasks, h]
  · rcases h : serializeList (listAll s) with e | ws <;> simp [list_tasks, h]
  · exact List.sorted_insertionSort descRel s
  · exact List.perm_insertionSort descRel s
  · intro ws h
    simp [list_tasks, h]

/-- Witness for C9: three tasks created in the order A, B, C list as
[C, B, A], and the concrete response is exactly that serialization. -/
theorem list_tasks_sorted_witness :
    listAll
      [[("_id", Value.vOid "aaaaaaaaaaaaaaaaaaaaaaaa"),
        ("title", Value.vStr "A"), ("created_at", Value.vTime 1)],
       [("_id", Value.vOid "bbbbbbbbbbbbbbbbbbbbbbbb"),
        ("title", Value.vStr "B"), ("created_at", Value.vTime 2)],
       [("_id", Value.vOid "cccccccccccccccccccccccc"),
        ("title", Value.vStr "C"), ("created_at", Value.vTime 3)]] =
      [[("_id", Value.vOid "cccccccccccccccccccccccc"),
        ("title", Value.vStr "C"), ("created_at", Value.vTime 3)],
       [("_id", Value.vOid "bbbbbbbbbbbbbbbbbbbbbbbb"),
        ("title", Value.vStr "B"), ("created_at", Value.vTime 2)],
       [("_id", Value.vOid "aaaaaaaaaaaaaaaaaaaaaaaa"),
        ("title", Value.vStr "A"), ("created_at", Value.vTime 1)]] ∧
    List.Sorted descRel (listAll
      [[("_id", Value.vOid "aaaaaaaaaaaaaaaaaaaaaaaa"),
        ("title", Value.vStr "A"), ("created_at", Value.vTime 1)],
       [("_id", Value.vOid "bbbbbbbbbbbbbbbbbbbbbbbb"),
        ("title", Value.vStr "B"), ("created_at", Value.vTime 2)],
       [("_id", Value.vOid "cccccccccccccccccccccccc"),
        ("title", Value.vStr "C"), ("created_at", Value.vTime 3)]]) ∧
    (list_tasks (some
      [[("_id", Value.vOid "aaaaaaaaaaaaaaaaaaaaaaaa"),
        ("title", Value.vStr "A"), ("created_at", Value.vTime 1)],
       [("_id", Value.vOid "bbbbbbbbbbbbbbbbbbbbbbbb"),
        ("title", Value.vStr "B"), ("created_at", Value.vTime 2)],
       [("_id", Value.vOid "cccccccccccccccccccccccc"),
        ("title", Value.vStr "C"), ("created_at", Value.vTime 3)]])).response =
      Except.ok
        [some ⟨"cccccccccccccccccccccccc", Value.vStr "C", Value.vNull,
           Value.vStr "normal", none, false, some (isoformat 3), none⟩,
         some ⟨"bbbbbbbbbbbbbbbbbbbbbbbb", Value.vStr "B", Value.vNull,
           Value.vStr "normal", none, false, some (isoformat 2), none⟩,
         some ⟨"aaaaaaaaaaaaaaaaaaaaaaaa", Value.vStr "A", Value.vNull,
           Value.vStr "normal", none, false, some (isoformat 1), none⟩] :=
  ⟨by decide,
   (list_tasks_sorted
     [[("_id", Value.vOid "aaaaaaaaaaaaaaaaaaaaaaaa"),
       ("title", Value.vStr "A"), ("created_at", Value.vTime 1)],
      [("_id", Value.vOid "bbbbbbbbbbbbbbbbbbbbbbbb"),
       ("title", Value.vStr "B"), ("created_at", Value.vTime 2)],
      [("_id", Value.vOid "cccccccccccccccccccccccc"),
       ("title", Value.vStr "C"), ("created_at", Value.vTime 3)]]).2.2.1,
   (list_tasks_sorted
     [[("_id", Value.vOid "aaaaaaaaaaaaaaaaaaaaaaaa"),
       ("title", Value.vStr "A"), ("created_at", Value.vTime 1)],
      [("_id", Value.vOid "bbbbbbbbbbbbbbbbbbbbbbbb"),
       ("title", Value.vStr "B"), ("created_at", Value.vTime 2)],
      [("_id", Value.vOid "cccccccccccccccccccccccc"),
       ("title", Value.vStr "C"), ("created_at", Value.vTime 3)]]).2.2.2.2.1
     [some ⟨"cccccccccccccccccccccccc", Value.vStr "C", Value.vNull,
        Value.vStr "normal", none, false, some (isoformat 3), none⟩,
      some ⟨"bbbbbbbbbbbbbbbbbbbbbbbb", Value.vStr "B", Value.vNull,
        Value.vStr "normal", none, false, some (isoformat 2), none⟩,
      some ⟨"aaaaaaaaaaaaaaaaaaaaaaaa", Value.vStr "A", Value.vNull,
        Value.vStr "normal", none, false, some (isoformat 1), none⟩]
     (by rfl)⟩

end FunkyTodo
